import Mathlib

/-!
Verification of the ResNet notebook (`src/Resnet.py`).

The script builds a symbolic computation graph of keras layers, normalizes
the CIFAR-10 data, one-hot encodes the labels, and trains the model with a
checkpoint callback and a learning-rate scheduler.  We embed the graph
construction as an inductive `Tensor` type, the numeric preprocessing over
`ℚ` and `ℕ`, and the callback configuration as plain records, all translated
from the source.
-/

namespace Resnet

/-- Tensor shapes flowing through the graph: a feature map `h × w × c`
(the leading batch dimension is left implicit, as in the notebook) or a
flat vector of length `n` (after global average pooling). -/
inductive Shape where
  | img (h w c : ℕ)
  | vec (n : ℕ)
deriving DecidableEq, Repr

/-- The symbolic layer graph built by the script.  Each constructor mirrors
one keras layer call: `kl.Input`, `kl.Conv2D` (always `padding='same'`, so
only filters, kernel size and strides matter for structure and shape),
`kl.BatchNormalization`, `kl.Activation`, `kl.add`, `kl.GlobalAveragePooling2D`
and `kl.Dense`. -/
inductive Tensor where
  | input (s : Shape)
  | conv2D (filters : ℕ) (kernel : ℕ × ℕ) (strides : ℕ) (t : Tensor)
  | batchNorm (t : Tensor)
  | activation (f : String) (t : Tensor)
  | add (a b : Tensor)
  | globalAveragePooling (t : Tensor)
  | dense (units : ℕ) (t : Tensor)
deriving DecidableEq, Repr

/-- `labels = ['airplane', 'car', 'bird', 'cat', 'deer', 'dog', 'frog',
'horse', 'ship', 'truck']` (line 43). -/
def labels : List String :=
  ["airplane", "car", "bird", "cat", "deer", "dog", "frog", "horse", "ship", "truck"]

/-- `N = len(labels)` (line 49). -/
def N : ℕ := labels.length

/-- Pixel normalization `x/255.` applied to `x_train` and `x_test`
(lines 45-46), modelled over `ℚ`. -/
def normalize (p : ℕ) : ℚ := (p : ℚ) / 255

/-- Elementwise normalization of an image (a flat list of pixel values). -/
def normalizeImage (xs : List ℕ) : List ℚ := xs.map normalize

/-- `keras.utils.to_categorical(c, n)` for a single integer label `c`:
the binary row vector of length `n` with a `1` at index `c` and `0`
elsewhere (lines 51-52). -/
def to_categorical (c n : ℕ) : List ℕ :=
  (List.range n).map (fun i => if i = c then 1 else 0)

/-- One-hot conversion of a whole label vector, as applied to both
`y_train` and `y_test` (lines 51-52). -/
def toCategoricalAll (ys : List ℕ) : List (List ℕ) :=
  ys.map (fun c => to_categorical c N)

/-- CIFAR-10 images are 32×32×3; `input_shape = x_train.shape[1:]` (line 69). -/
def input_shape : Shape := .img 32 32 3

/-- `inputs = kl.Input(shape=input_shape)` (line 70). -/
def inputs : Tensor := .input input_shape

/-- First convolution + BN + relu (lines 73-75). -/
def act1_0 : Tensor :=
  .activation "relu" (.batchNorm (.conv2D 16 (3, 3) 1 inputs))

/-- The conv/batch-norm branch of a (non-downsampling) residual block:
conv 3×3 → BN → relu → conv 3×3 → BN, with `f` filters (the loop bodies at
lines 79-84, 105-110 and 131-135, which differ only in the filter count). -/
def resBranch (f : ℕ) (x : Tensor) : Tensor :=
  .batchNorm (.conv2D f (3, 3) 1
    (.activation "relu" (.batchNorm (.conv2D f (3, 3) 1 x))))

/-- One full (non-downsampling) residual block: `skip = kl.add([act1, bn])`
then `act1 = kl.Activation('relu')(skip)` (lines 87-88, 113-114, 138-139). -/
def resBlock (f : ℕ) (x : Tensor) : Tensor :=
  .activation "relu" (.add x (resBranch f x))

/-- The strided conv/batch-norm branch of a downsampling block:
conv 3×3 stride 2 → BN → relu → conv 3×3 → BN, with `f` filters
(lines 91-95 and 117-121). -/
def downBranch (f : ℕ) (x : Tensor) : Tensor :=
  .batchNorm (.conv2D f (3, 3) 1
    (.activation "relu" (.batchNorm (.conv2D f (3, 3) 2 x))))

/-- A downsampling block: the skip path is a 1×1 stride-2 convolution of the
block input (`act1_downsampled`, lines 98 and 124), added to the branch
output (`skip_downsampled = kl.add([act1_downsampled, bn])`, lines 100
and 126) and then passed through relu (lines 101 and 127). -/
def downBlock (f : ℕ) (x : Tensor) : Tensor :=
  .activation "relu" (.add (.conv2D f (1, 1) 2 x) (downBranch f x))

/-- `act1` after the three 16-filter residual blocks (loop at lines 78-88). -/
def act1_1 : Tensor := resBlock 16 (resBlock 16 (resBlock 16 act1_0))

/-- `act1` after the 16→32 downsampling block (lines 91-101). -/
def act1_2 : Tensor := downBlock 32 act1_1

/-- `act1` after the two 32-filter residual blocks (loop at lines 104-114). -/
def act1_3 : Tensor := resBlock 32 (resBlock 32 act1_2)

/-- `act1` after the 32→64 downsampling block (lines 117-127). -/
def act1_4 : Tensor := downBlock 64 act1_3

/-- `act1` after the two 64-filter residual blocks (loop at lines 130-139). -/
def act1_5 : Tensor := resBlock 64 (resBlock 64 act1_4)

/-- `gap = kl.GlobalAveragePooling2D()(act1)` (line 155). -/
def gap : Tensor := .globalAveragePooling act1_5

/-- `bn = kl.BatchNormalization()(gap)` (line 156). -/
def bn_head : Tensor := .batchNorm gap

/-- `final_dense = kl.Dense(N)(bn)` (line 157). -/
def final_dense : Tensor := .dense N bn_head

/-- `softmax = kl.Activation('softmax')(final_dense)` (line 158); the model
output (line 165). -/
def softmax : Tensor := .activation "softmax" final_dense

/-- Whether a graph node is a `kl.add` node. -/
def isAdd : Tensor → Bool
  | .add _ _ => true
  | _ => false

/-- Checks that every `kl.add` node strictly inside the graph occurs as the
immediate argument of a relu activation (so each skip addition happens
before, and only before, the next relu). -/
def addsUnderRelu : Tensor → Bool
  | .input _ => true
  | .conv2D _ _ _ t => !isAdd t && addsUnderRelu t
  | .batchNorm t => !isAdd t && addsUnderRelu t
  | .activation f t => (!isAdd t || f == "relu") && addsUnderRelu t
  | .add a b => !isAdd a && !isAdd b && addsUnderRelu a && addsUnderRelu b
  | .globalAveragePooling t => !isAdd t && addsUnderRelu t
  | .dense _ t => !isAdd t && addsUnderRelu t

/-- Output size of a `'same'`-padded convolution along one spatial axis with
the given stride: `⌈n / s⌉`. -/
def ceilDiv (n s : ℕ) : ℕ := (n + s - 1) / s

/-- Shape inference over the graph; `none` marks an ill-formed node (in
particular an addition of mismatched shapes). -/
def outShape : Tensor → Option Shape
  | .input s => some s
  | .conv2D f _ strides t =>
    match outShape t with
    | some (.img h w _) => some (.img (ceilDiv h strides) (ceilDiv w strides) f)
    | _ => none
  | .batchNorm t => outShape t
  | .activation _ t => outShape t
  | .add a b =>
    match outShape a, outShape b with
    | some sa, some sb => if sa = sb then some sa else none
    | _, _ => none
  | .globalAveragePooling t =>
    match outShape t with
    | some (.img _ _ c) => some (.vec c)
    | _ => none
  | .dense units t =>
    match outShape t with
    | some (.vec _) => some (.vec units)
    | _ => none

/-- Checks that every `kl.add` node in the graph adds two operands of equal,
well-defined shapes. -/
def addsShapeMatched : Tensor → Bool
  | .input _ => true
  | .conv2D _ _ _ t => addsShapeMatched t
  | .batchNorm t => addsShapeMatched t
  | .activation _ t => addsShapeMatched t
  | .add a b =>
    (outShape a).isSome && outShape a = outShape b
      && addsShapeMatched a && addsShapeMatched b
  | .globalAveragePooling t => addsShapeMatched t
  | .dense _ t => addsShapeMatched t

/-- `lr_schedule` (lines 205-210): `lr = 1e-3`, then `lr *= 1e-3` when
`epoch > 60`; numerals modelled over `ℚ`. -/
def lr_schedule (epoch : ℕ) : ℚ :=
  let lr : ℚ := 1 / 1000
  if epoch > 60 then lr * (1 / 1000) else lr

/-- `filepath = './checkpoints'` (line 190). -/
def filepath : String := "./checkpoints"

/-- The arguments of the `kc.ModelCheckpoint` constructor call. -/
structure CheckpointConfig where
  filepath : String
  monitor : String
  verbose : ℕ
  save_best_only : Bool
deriving DecidableEq

/-- `checkpoint = kc.ModelCheckpoint(filepath=filepath, monitor='val_acc',
verbose=1, save_best_only=True)` (lines 193-196). -/
def checkpoint : CheckpointConfig :=
  { filepath := filepath
    monitor := "val_acc"
    verbose := 1
    save_best_only := true }

/-- The filepaths of all checkpoint callbacks the script constructs: the
script makes exactly one, `checkpoint`, with path `filepath` (lines 190-196),
and no other code in the script writes weights anywhere. -/
def checkpointWritePaths : List String := [checkpoint.filepath]

/-- Modelled from the spec: the save-on-improvement behaviour of keras's
`ModelCheckpoint` with `save_best_only=True` is library code absent from
`src/` (the script only passes its configuration).  Per the spec it is
"persisting model weights to storage when a monitored validation metric
improves": the callback keeps the best monitored value seen so far. -/
structure CheckpointState where
  best : ℚ
deriving DecidableEq

/-- Modelled from the spec: one end-of-epoch step of the checkpoint callback.
Given the current best value and this epoch's monitored metric `v`
(`val_acc`), it saves the weights (returns `true`) exactly when `v` improves
over the best, updating the best; otherwise it saves nothing and keeps the
state. -/
def checkpointStep (s : CheckpointState) (v : ℚ) : CheckpointState × Bool :=
  if s.best < v then (⟨v⟩, true) else (s, false)

/-- The two callbacks the script constructs (lines 193-196 and 211). -/
inductive Callback where
  | checkpoint
  | lr_scheduler
deriving DecidableEq, Repr

/-- The arguments of a `model.fit` call in the script. -/
structure FitCall where
  batch_size : ℕ
  epochs : ℕ
  shuffle : Bool
  callbacks : List Callback
deriving DecidableEq

/-- The first `model.fit` call (lines 174-179): no `callbacks` argument. -/
def fit1 : FitCall :=
  { batch_size := 128, epochs := 100, shuffle := true, callbacks := [] }

/-- The second `model.fit` call (lines 219-224):
`callbacks=[checkpoint, lr_scheduler]`. -/
def fit2 : FitCall :=
  { batch_size := 128, epochs := 100, shuffle := true
    callbacks := [.checkpoint, .lr_scheduler] }

/-- All `model.fit` calls in the script, in order. -/
def fitCalls : List FitCall := [fit1, fit2]

/-- C1: every (non-downsampling) residual block of the construction adds the
block input to the conv/batch-norm branch output and only then applies the
next relu, i.e. computes `relu (F x + x)`; the built network is exactly a
composition of these blocks (with downsampling blocks between the stages),
and every `kl.add` node anywhere in the graph is immediately followed by a
relu activation. -/
theorem c1_residual_add_before_relu :
    (∀ f x, resBlock f x = .activation "relu" (.add x (resBranch f x)))
    ∧ act1_5 = resBlock 64 (resBlock 64 (downBlock 64
        (resBlock 32 (resBlock 32 (downBlock 32
          (resBlock 16 (resBlock 16 (resBlock 16 act1_0))))))))
    ∧ addsUnderRelu softmax = true :=
  ⟨fun _ _ => rfl, rfl, by decide⟩

/-- C2: `lr_schedule` is monotonically non-increasing in the epoch:
for `e1 ≤ e2`, `lr_schedule e1 ≥ lr_schedule e2`. -/
theorem c2_lr_schedule_monotone :
    ∀ e1 e2 : ℕ, e1 ≤ e2 → lr_schedule e2 ≤ lr_schedule e1 := by
  intro e1 e2 h
  simp only [lr_schedule]
  split <;> split <;> first | (exfalso; omega) | norm_num

/-- Witness for C2 at epochs 0 and 100. -/
theorem c2_lr_schedule_monotone_witness :
    (0 : ℕ) ≤ 100 ∧ lr_schedule 100 ≤ lr_schedule 0 :=
  ⟨by decide, c2_lr_schedule_monotone 0 100 (by decide)⟩

/-- C3: the checkpoint callback is configured to monitor `'val_acc'` with
`save_best_only=True`, and (spec-modelled keras behaviour) a checkpoint step
saves the weights exactly when the monitored value improves over the best
seen so far, updating the best; otherwise it saves nothing and keeps the
state unchanged. -/
theorem c3_checkpoint_saves_iff_improves :
    checkpoint.monitor = "val_acc" ∧ checkpoint.save_best_only = true ∧
    ∀ (s : CheckpointState) (v : ℚ),
      (checkpointStep s v).2 = decide (s.best < v) ∧
      (checkpointStep s v).1 = if s.best < v then ⟨v⟩ else s := by
  refine ⟨rfl, rfl, fun s v => ?_⟩
  by_cases h : s.best < v <;> simp [checkpointStep, h]

/-- C4 counterexample: it is not the case that every `model.fit` call in the
script passes both the checkpoint and the learning-rate callbacks — the
first fit call passes none. -/
theorem c4_counterexample_first_fit_no_callbacks :
    ¬ ∀ fc ∈ fitCalls,
        Callback.checkpoint ∈ fc.callbacks
        ∧ Callback.lr_scheduler ∈ fc.callbacks := by
  decide

/-- C4 amended: the script makes exactly two `model.fit` calls; only the
second passes the two callback hooks `[checkpoint, lr_scheduler]`, while the
first passes no callbacks at all. -/
theorem c4_amended_only_second_fit_has_callbacks :
    fitCalls = [fit1, fit2]
    ∧ fit1.callbacks = []
    ∧ fit2.callbacks = [.checkpoint, .lr_scheduler] :=
  ⟨rfl, rfl, rfl⟩

/-- C5: the classifier has exactly 10 classes: `labels` has length 10, `N`
is 10, every converted one-hot row has width 10, and the final dense layer
has 10 output units. -/
theorem c5_ten_classes :
    N = 10 ∧ labels.length = 10
    ∧ (∀ ys, ∀ row ∈ toCategoricalAll ys, row.length = 10)
    ∧ final_dense = .dense 10 bn_head := by
  refine ⟨rfl, rfl, ?_, rfl⟩
  intro ys row hrow
  obtain ⟨c, _, rfl⟩ := List.mem_map.1 hrow
  simp only [to_categorical, List.length_map, List.length_range]
  rfl

/-- Witness for C5 on the concrete label vector `[0, 7]`. -/
theorem c5_ten_classes_witness :
    to_categorical 0 N ∈ toCategoricalAll [0, 7]
    ∧ (to_categorical 0 N).length = 10 :=
  ⟨by decide, c5_ten_classes.2.2.1 [0, 7] (to_categorical 0 N) (by decide)⟩

/-- C6: dividing by 255 maps every pixel value in `0..255` into `[0, 1]`,
for the training images and the test images alike. -/
theorem c6_normalize_unit_interval :
    ∀ (train test : List ℕ),
      (∀ p ∈ train, p ≤ 255) → (∀ p ∈ test, p ≤ 255) →
      (∀ q ∈ normalizeImage train, 0 ≤ q ∧ q ≤ 1) ∧
      (∀ q ∈ normalizeImage test, 0 ≤ q ∧ q ≤ 1) := by
  have key : ∀ p : ℕ, p ≤ 255 → 0 ≤ normalize p ∧ normalize p ≤ 1 := by
    intro p hp
    unfold normalize
    refine ⟨by positivity, ?_⟩
    rw [div_le_one (by norm_num)]
    exact_mod_cast hp
  intro train test htr hte
  constructor <;> intro q hq <;>
    obtain ⟨p, hp, rfl⟩ := List.mem_map.1 hq
  · exact key p (htr p hp)
  · exact key p (hte p hp)

/-- Witness for C6 on concrete images `[0, 128, 255]` and `[17]`. -/
theorem c6_normalize_unit_interval_witness :
    (∀ q ∈ normalizeImage [0, 128, 255], 0 ≤ q ∧ q ≤ 1) ∧
    (∀ q ∈ normalizeImage [17], 0 ≤ q ∧ q ≤ 1) :=
  c6_normalize_unit_interval [0, 128, 255] [17] (by decide) (by decide)

/-- C7: for `c < 10` the one-hot row has value 1 at index `c` and 0 at every
other index below 10, and the conversion applied to whole label vectors
(as for `y_train` and `y_test`) is exactly this rowwise conversion. -/
theorem c7_one_hot :
    (∀ c, c < 10 → ∀ i, i < 10 →
      (to_categorical c N)[i]? = some (if i = c then 1 else 0))
    ∧ ∀ ys, toCategoricalAll ys = ys.map fun c => to_categorical c N := by
  refine ⟨fun c _ i hi => ?_, fun ys => rfl⟩
  have hN : N = 10 := rfl
  rw [to_categorical, hN, List.getElem?_map, List.getElem?_range hi,
    Option.map_some']

/-- Witness for C7 at label 3, indices 3 and 5. -/
theorem c7_one_hot_witness :
    (to_categorical 3 N)[3]? = some 1
    ∧ (to_categorical 3 N)[5]? = some 0 := by
  have h1 := c7_one_hot.1 3 (by decide) 3 (by decide)
  have h2 := c7_one_hot.1 3 (by decide) 5 (by decide)
  simpa using ⟨h1, h2⟩

/-- C8: the only filesystem path the script configures for checkpoint
weights is the single path `./checkpoints`. -/
theorem c8_single_checkpoint_path :
    checkpointWritePaths = ["./checkpoints"]
    ∧ checkpoint.filepath = filepath
    ∧ filepath = "./checkpoints" :=
  ⟨rfl, rfl, rfl⟩

/-- C9: `lr_schedule` takes exactly two values: `1e-3` (as `1/1000`) for
every epoch `≤ 60`, including 60 itself, and `1e-6` (as `1/1000000`) for
every epoch `> 60`; no other value is ever returned. -/
theorem c9_lr_schedule_two_values :
    (∀ e, e ≤ 60 → lr_schedule e = 1 / 1000) ∧
    (∀ e, 60 < e → lr_schedule e = 1 / 1000000) ∧
    (∀ e, lr_schedule e = 1 / 1000 ∨ lr_schedule e = 1 / 1000000) := by
  refine ⟨fun e he => ?_, fun e he => ?_, fun e => ?_⟩
  · simp only [lr_schedule]
    rw [if_neg (by omega)]
  · simp only [lr_schedule]
    rw [if_pos (by omega)]
    norm_num
  · simp only [lr_schedule]
    split
    · right; norm_num
    · left; rfl

/-- Witness for C9 at epochs 60 and 61. -/
theorem c9_lr_schedule_two_values_witness :
    lr_schedule 60 = 1 / 1000 ∧ lr_schedule 61 = 1 / 1000000 :=
  ⟨c9_lr_schedule_two_values.1 60 (by decide),
   c9_lr_schedule_two_values.2.1 61 (by decide)⟩

/-- C10: every `kl.add` in the graph adds shape-matched operands; in the
downsampling blocks the residual branch halves the spatial size and doubles
the channels (16→32 at 32×32, then 32→64 at 16×16), and the stride-2 1×1
convolution on the skip path produces the identical shape before the
addition. -/
theorem c10_adds_shape_matched :
    addsShapeMatched softmax = true
    ∧ outShape act1_1 = some (.img 32 32 16)
    ∧ outShape (downBranch 32 act1_1) = some (.img 16 16 32)
    ∧ outShape (.conv2D 32 (1, 1) 2 act1_1) = some (.img 16 16 32)
    ∧ outShape act1_3 = some (.img 16 16 32)
    ∧ outShape (downBranch 64 act1_3) = some (.img 8 8 64)
    ∧ outShape (.conv2D 64 (1, 1) 2 act1_3) = some (.img 8 8 64) := by
  refine ⟨by decide, by decide, by decide, by decide, by decide, by decide, by decide⟩

end Resnet
